import Mathlib

/-!
Shallow embedding of `src/index.ts` (BLIV-CLUB/contract-intergration-example).

The script is straight-line orchestration of JSON-RPC calls: it reads
configuration from environment variables (`initWeb3`), then builds,
gas-estimates and submits transactions against an order book, a margin
contract, a protocol vault and a generic ERC-20 token
(`addMakerOrder`, `removeMakerOrder`, `depositMarginWETH`,
`depositMarginOtherToken`, `withdrawMargin`).

The chain is modelled as an oracle (`Chain`) answering each RPC; every
operation returns the list of network events it emitted (`NetEvent`)
together with its outcome (`Except String _`).  The transaction-count
oracle is indexed by the position in the event trace at which the lookup
happens, so that freshness of nonces is observable.  JavaScript-specific
semantics that the claims depend on are modelled explicitly: truthiness
of environment strings (`falsy`), lexicographic string comparison
(`jsStrLt` for `<` on decimal strings), and exact string inequality
(`!=`) for the maker-address check.
-/

namespace ContractClient

/-- Numeric value of a hexadecimal digit character. -/
def hexDigitVal (c : Char) : Nat :=
  if '0' ≤ c ∧ c ≤ '9' then c.toNat - '0'.toNat
  else if 'a' ≤ c ∧ c ≤ 'f' then c.toNat - 'a'.toNat + 10
  else if 'A' ≤ c ∧ c ≤ 'F' then c.toNat - 'A'.toNat + 10
  else 0

/-- Whether a character is a hexadecimal digit. -/
def isHexDigit (c : Char) : Bool :=
  ('0' ≤ c && c ≤ '9') || ('a' ≤ c && c ≤ 'f') || ('A' ≤ c && c ≤ 'F')

/-- The hex body of an address string: drops an optional `0x`/`0X` marker
(`web3-validator` accepts both and also a bare body). -/
def addrBody (s : String) : List Char :=
  match s.data with
  | '0' :: 'x' :: rest => rest
  | '0' :: 'X' :: rest => rest
  | l => l

/-- Numeric value denoted by a hexadecimal address string. -/
def hexToNat (s : String) : Nat :=
  (addrBody s).foldl (fun acc c => 16 * acc + hexDigitVal c) 0

/-- Numeric value of a decimal string (as produced by `BigInt.toString()`). -/
def decToNat (s : String) : Nat :=
  s.data.foldl (fun acc c => 10 * acc + (c.toNat - '0'.toNat)) 0

/-- Big-endian 32-byte word of a natural number, as the ABI encodes one
static slot. -/
def beBytes32 (n : Nat) : List Nat :=
  (List.range 32).map fun i => n / 256 ^ (31 - i) % 256

/-- JavaScript `<` on strings: lexicographic comparison by code unit. -/
def charListLt : List Char → List Char → Bool
  | [], [] => false
  | [], _ :: _ => true
  | _ :: _, [] => false
  | a :: as, b :: bs =>
    if a.toNat < b.toNat then true
    else if b.toNat < a.toNat then false
    else charListLt as bs

/-- JavaScript string comparison `a < b`. -/
def jsStrLt (a b : String) : Bool := charListLt a.data b.data

/-- ASCII lower-casing of one character. -/
def charLower (c : Char) : Char :=
  if 'A' ≤ c ∧ c ≤ 'Z' then Char.ofNat (c.toNat + 32) else c

/-- ASCII lower-casing of a string (to express that two addresses differ
only in letter case). -/
def strLower (s : String) : String := ⟨s.data.map charLower⟩

/-- Whether a character is JavaScript whitespace (the forms relevant to
`String.prototype.trim` on key material). -/
def isWsChar (c : Char) : Bool :=
  c = ' ' || c = '\t' || c = '\n' || c = '\r'

/-- Model of JavaScript `String.prototype.trim`. -/
def trimStr (s : String) : String :=
  ⟨((s.data.dropWhile isWsChar).reverse.dropWhile isWsChar).reverse⟩

/-- JavaScript truthiness test on an environment variable: `undefined`
and the empty string are falsy. -/
def falsy : Option String → Bool
  | none => true
  | some s => s.data.isEmpty

/-- The contract calls the script encodes, one constructor per ABI method
it invokes; arguments are carried exactly as the source passes them. -/
inductive CallData where
  | addMakerOrder (parameters : List Nat)
  | removeOrder (id : Nat)
  | receiveDepositWETH (amount : String)
  | receiveDepositInOtherToken (token : String) (amount : String)
  | withdraw (amount : String)
  | allowance (owner : String) (spender : String)
  | approve (spender : String) (amount : String)
deriving DecidableEq, Repr

/-- The transaction request object handed to `.send`: destination
contract, `from`, `nonce` (a decimal string, as the source stringifies
it), optional EIP-1559 `type` marker, and the encoded method call.  The
source never sets a gas field on these objects. -/
structure TxRequest where
  dest : String
  fromAddr : String
  nonce : String
  txType : Option String
  call : CallData
deriving DecidableEq, Repr

/-- One network round-trip made by the script. -/
inductive NetEvent where
  | estimateGas (dest : String) (call : CallData) (fromAddr : Option String)
  | getTransactionCount (addr : String)
  | ethCall (dest : String) (call : CallData)
  | send (tx : TxRequest)
deriving DecidableEq, Repr

/-- The remote node, as an oracle answering each kind of RPC.  The
transaction count depends on the trace position at which it is queried,
so a changing chain state is representable. -/
structure Chain where
  estimateGas : String → CallData → Option String → Except String Nat
  txCount : Nat → String → Except String Nat
  callResult : String → CallData → Except String Nat
  send : TxRequest → Except String String

/-- The `Account` record built in `initWeb3` (address plus raw key
material). -/
structure Account where
  address : String
  mnemonic : String
deriving DecidableEq, Repr

/-- The environment variables the script reads. -/
structure Env where
  RPC_ENDPOINT : Option String
  ORDER_BOOK_ADDRESS : Option String
  MARGIN_ADDRESS : Option String
  PROTOCOL_VAULT_ADDRESS : Option String
  MAKER_ADDRESS : Option String
  PRIVATE_KEY : Option String
deriving DecidableEq, Repr

/-- What `initWeb3` returns on success: the signing account and the
addresses the three contract bindings were constructed at. -/
structure Client where
  account : Account
  orderBookAddr : String
  marginAddr : String
  protocolVaultAddr : String
deriving DecidableEq, Repr

/-- Model of the `web3-validator` address-format check: an optional `0x` marker
followed by exactly 40 hexadecimal digits. -/
def isAddressFormat (s : String) : Bool :=
  (addrBody s).length == 40 && (addrBody s).all isHexDigit

/-- Whether every hex letter of the body is lowercase. -/
def isLowerHexBody (s : String) : Bool :=
  (addrBody s).all fun c => ('0' ≤ c && c ≤ '9') || ('a' ≤ c && c ≤ 'f')

/-- Whether every hex letter of the body is uppercase. -/
def isUpperHexBody (s : String) : Bool :=
  (addrBody s).all fun c => ('0' ≤ c && c ≤ '9') || ('A' ≤ c && c ≤ 'F')

/-- Model of `web3-validator.isAddress`: format check, then all-lowercase and
all-uppercase bodies pass outright while mixed-case bodies must pass the
EIP-55 checksum, abstracted as `checksumOk` (it hashes with keccak-256,
outside this embedding). -/
def isAddress (checksumOk : String → Bool) (s : String) : Bool :=
  isAddressFormat s &&
    (isLowerHexBody s || isUpperHexBody s || checksumOk s)

/-- Model of `web3.eth.abi.encodeParameters` at the declared type list
`["address","uint256","uint256","bool"]`
for the maker-order tuple: four static slots, one big-endian 32-byte
word each — the address left-padded, the two decimal amounts as
uint256, and the flag as 0/1. -/
def encodeParameters (addr amount price : String) (isBuy : Bool) : List Nat :=
  beBytes32 (hexToNat addr) ++ beBytes32 (decToNat amount) ++
    beBytes32 (decToNat price) ++ beBytes32 (if isBuy then 1 else 0)

/-- The fixed token address literal of `depositMarginOtherToken`
(`src/index.ts:204`), copied verbatim. -/
def tokenAddress : String := "0x000000000000000000000000000000"

/-- Translation of `initWeb3` (`src/index.ts:33`): validates the environment, builds the
contract bindings and the signing account, and checks that the address
derived from `PRIVATE_KEY` (by `web3.eth.accounts.wallet.add`, abstracted
as `derive`) is string-equal to `MAKER_ADDRESS`.  It makes no network
round-trip, hence the empty trace. -/
def initWeb3 (checksumOk : String → Bool) (derive : String → String)
    (env : Env) : List NetEvent × Except String Client :=
  if falsy env.RPC_ENDPOINT then
    ([], .error "Provide a valid RPC_ENDPOINT")
  else if falsy env.ORDER_BOOK_ADDRESS || falsy env.MARGIN_ADDRESS ||
      falsy env.PROTOCOL_VAULT_ADDRESS then
    ([], .error "Please Provide Contract Address")
  else if falsy env.MAKER_ADDRESS ||
      !(isAddress checksumOk (env.MAKER_ADDRESS.getD "")) then
    ([], .error "Please Provide Valid Maker Address ")
  else if falsy env.PRIVATE_KEY then
    ([], .error "Please Provide valid Private Key")
  else
    let key := trimStr (env.PRIVATE_KEY.getD "")
    let derived := derive key
    if derived ≠ env.MAKER_ADDRESS.getD "" then
      ([], .error "Invalid MNEMONIC and Maker Address differ")
    else
      ([], .ok { account := { address := derived, mnemonic := key },
                 orderBookAddr := env.ORDER_BOOK_ADDRESS.getD "",
                 marginAddr := env.MARGIN_ADDRESS.getD "",
                 protocolVaultAddr := env.PROTOCOL_VAULT_ADDRESS.getD "" })

/-- Translation of `addMakerOrder` (`src/index.ts:82`): encode the fixed demo order
(amount `toWei(0.1)`, price `toWei(2)`, buy, maker = signing account),
estimate gas, fail on a falsy estimate, fetch the nonce fresh and submit.
The intermediate `encodeABI()` result is local and unused. -/
def addMakerOrder (chain : Chain) (account : Account)
    (orderBookAddr : String) : List NetEvent × Except String Unit :=
  let parameters :=
    encodeParameters account.address "100000000000000000"
      "2000000000000000000" true
  let ev0 := NetEvent.estimateGas orderBookAddr
    (CallData.addMakerOrder parameters) (some account.address)
  match chain.estimateGas orderBookAddr (CallData.addMakerOrder parameters)
      (some account.address) with
  | .error e => ([ev0], .error e)
  | .ok gasEstimate =>
    if gasEstimate = 0 then ([ev0], .error " Estimate Gas Failed ")
    else
      let ev1 := NetEvent.getTransactionCount account.address
      match chain.txCount 1 account.address with
      | .error e => ([ev0, ev1], .error e)
      | .ok n =>
        let tx : TxRequest :=
          { dest := orderBookAddr, fromAddr := account.address,
            nonce := Nat.repr n, txType := none,
            call := CallData.addMakerOrder parameters }
        match chain.send tx with
        | .error e => ([ev0, ev1, NetEvent.send tx], .error e)
        | .ok _hash => ([ev0, ev1, NetEvent.send tx], .ok ())

/-- Translation of `removeMakerOrder` (`src/index.ts:154`): estimate gas for
`removeOrder(123)` (no `from`), fail on a falsy estimate, submit with a
fresh nonce and EIP-1559 type. -/
def removeMakerOrder (chain : Chain) (account : Account)
    (orderBookAddr : String) : List NetEvent × Except String Unit :=
  let ev0 := NetEvent.estimateGas orderBookAddr (CallData.removeOrder 123) none
  match chain.estimateGas orderBookAddr (CallData.removeOrder 123) none with
  | .error e => ([ev0], .error e)
  | .ok estimatedGas =>
    if estimatedGas = 0 then ([ev0], .error "Cannot Estimate Gas")
    else
      let ev1 := NetEvent.getTransactionCount account.address
      match chain.txCount 1 account.address with
      | .error e => ([ev0, ev1], .error e)
      | .ok n =>
        let tx : TxRequest :=
          { dest := orderBookAddr, fromAddr := account.address,
            nonce := Nat.repr n, txType := some "0x02",
            call := CallData.removeOrder 123 }
        match chain.send tx with
        | .error e => ([ev0, ev1, NetEvent.send tx], .error e)
        | .ok _ => ([ev0, ev1, NetEvent.send tx], .ok ())

/-- Translation of `depositMarginWETH` (`src/index.ts:174`): estimate gas for
`receiveDepositWETH(toWei(1))` with `from`, fail on a falsy estimate,
submit with a fresh nonce and EIP-1559 type. -/
def depositMarginWETH (chain : Chain) (account : Account)
    (protocolVaultAddr : String) : List NetEvent × Except String Unit :=
  let ev0 := NetEvent.estimateGas protocolVaultAddr
    (CallData.receiveDepositWETH "1000000000000000000") (some account.address)
  match chain.estimateGas protocolVaultAddr
      (CallData.receiveDepositWETH "1000000000000000000")
      (some account.address) with
  | .error e => ([ev0], .error e)
  | .ok estimatedGas =>
    if estimatedGas = 0 then ([ev0], .error "Failed to Estimate Gas")
    else
      let ev1 := NetEvent.getTransactionCount account.address
      match chain.txCount 1 account.address with
      | .error e => ([ev0, ev1], .error e)
      | .ok n =>
        let tx : TxRequest :=
          { dest := protocolVaultAddr, fromAddr := account.address,
            nonce := Nat.repr n, txType := some "0x02",
            call := CallData.receiveDepositWETH "1000000000000000000" }
        match chain.send tx with
        | .error e => ([ev0, ev1, NetEvent.send tx], .error e)
        | .ok _ => ([ev0, ev1, NetEvent.send tx], .ok ())

/-- JavaScript ternary `x ? x : ""` on an environment variable, as
`depositMarginOtherToken` reads `process.env.PROTOCOL_VAULT_ADDRESS`. -/
def envStr (o : Option String) : String :=
  if falsy o then "" else o.getD ""

/-- Second half of `depositMarginOtherToken` (`src/index.ts:233`), after
the allowance block has emitted `evs`: estimate gas for
`receiveDepositInOtherToken(tokenAddress, toWei(1))` (no `from`), fail
on a falsy estimate, then submit the deposit with a fresh nonce and
EIP-1559 type. -/
def depositOtherFinish (chain : Chain) (account : Account)
    (protocolVaultAddr : String) (evs : List NetEvent) :
    List NetEvent × Except String Unit :=
  let depositCall :=
    CallData.receiveDepositInOtherToken tokenAddress "1000000000000000000"
  let ev3 := NetEvent.estimateGas protocolVaultAddr depositCall none
  match chain.estimateGas protocolVaultAddr depositCall none with
  | .error e => (evs ++ [ev3], .error e)
  | .ok estimatedGas =>
    if estimatedGas = 0 then (evs ++ [ev3], .error "Failed to Estimate Gas")
    else
      let ev4 := NetEvent.getTransactionCount account.address
      match chain.txCount (evs.length + 1) account.address with
      | .error e => (evs ++ [ev3, ev4], .error e)
      | .ok n =>
        let tx : TxRequest :=
          { dest := protocolVaultAddr, fromAddr := account.address,
            nonce := Nat.repr n, txType := some "0x02",
            call := depositCall }
        match chain.send tx with
        | .error e => (evs ++ [ev3, ev4, NetEvent.send tx], .error e)
        | .ok _ => (evs ++ [ev3, ev4, NetEvent.send tx], .ok ())

/-- Translation of `depositMarginOtherToken` (`src/index.ts:199`): query the allowance
granted to the vault on the fixed `tokenAddress`, compare it to
`toWei(1)` with JavaScript string `<` on the decimal strings, submit an
`approve` when the comparison says so, then continue with
`depositOtherFinish`.  `vaultEnv` is `process.env.PROTOCOL_VAULT_ADDRESS`
as read inside the function (ternary to `""` when falsy);
`protocolVaultAddr` is the address of the vault binding it was given. -/
def depositMarginOtherToken (chain : Chain) (account : Account)
    (protocolVaultAddr : String) (vaultEnv : Option String) :
    List NetEvent × Except String Unit :=
  let vaultArg := envStr vaultEnv
  let ev0 := NetEvent.ethCall tokenAddress
    (CallData.allowance account.address vaultArg)
  match chain.callResult tokenAddress
      (CallData.allowance account.address vaultArg) with
  | .error e => ([ev0], .error e)
  | .ok approval =>
    if jsStrLt (Nat.repr approval) "1000000000000000000" then
      let ev1 := NetEvent.getTransactionCount account.address
      match chain.txCount 1 account.address with
      | .error e => ([ev0, ev1], .error e)
      | .ok n =>
        let txA : TxRequest :=
          { dest := tokenAddress, fromAddr := account.address,
            nonce := Nat.repr n, txType := some "0x02",
            call := CallData.approve vaultArg "1000000000000000000" }
        match chain.send txA with
        | .error e => ([ev0, ev1, NetEvent.send txA], .error e)
        | .ok _ =>
          depositOtherFinish chain account protocolVaultAddr
            [ev0, ev1, NetEvent.send txA]
    else depositOtherFinish chain account protocolVaultAddr [ev0]

/-- Translation of `withdrawMargin` (`src/index.ts:254`): estimate gas for
`withdraw(toWei(1))` (no `from`), fail on a falsy estimate, submit with a
fresh nonce and EIP-1559 type.  `main` hands it the protocol-vault
binding, so the destination is whatever address the binding carries. -/
def withdrawMargin (chain : Chain) (account : Account)
    (marginAddr : String) : List NetEvent × Except String Unit :=
  let ev0 := NetEvent.estimateGas marginAddr
    (CallData.withdraw "1000000000000000000") none
  match chain.estimateGas marginAddr
      (CallData.withdraw "1000000000000000000") none with
  | .error e => ([ev0], .error e)
  | .ok estimatedGas =>
    if estimatedGas = 0 then ([ev0], .error "Failed to Estimate Gas")
    else
      let ev1 := NetEvent.getTransactionCount account.address
      match chain.txCount 1 account.address with
      | .error e => ([ev0, ev1], .error e)
      | .ok n =>
        let tx : TxRequest :=
          { dest := marginAddr, fromAddr := account.address,
            nonce := Nat.repr n, txType := some "0x02",
            call := CallData.withdraw "1000000000000000000" }
        match chain.send tx with
        | .error e => ([ev0, ev1, NetEvent.send tx], .error e)
        | .ok _ => ([ev0, ev1, NetEvent.send tx], .ok ())

/-- Translation of `main` (`src/index.ts:272`): initialize, then run `addMakerOrder`
(the only operation not commented out); any error from either step is an
unhandled rejection terminating the process. -/
def main (chain : Chain) (checksumOk : String → Bool)
    (derive : String → String) (env : Env) :
    List NetEvent × Except String Unit :=
  match initWeb3 checksumOk derive env with
  | (evs, .error e) => (evs, .error e)
  | (evs, .ok client) =>
    let r := addMakerOrder chain client.account client.orderBookAddr
    (evs ++ r.1, r.2)

/-- Number of events of a trace satisfying a predicate. -/
def countP (p : NetEvent → Bool) (l : List NetEvent) : Nat :=
  (l.filter p).length

/-- Event discriminator: a transaction submission. -/
def isSendEv : NetEvent → Bool
  | .send _ => true
  | _ => false

/-- Event discriminator: a gas estimation. -/
def isEstimateEv : NetEvent → Bool
  | .estimateGas _ _ _ => true
  | _ => false

/-- Event discriminator: a transaction-count lookup. -/
def isTxCountEv : NetEvent → Bool
  | .getTransactionCount _ => true
  | _ => false

/-- Event discriminator: a read-only `eth_call`. -/
def isEthCallEv : NetEvent → Bool
  | .ethCall _ _ => true
  | _ => false

/-- Event discriminator: a submission whose call satisfies `p`. -/
def isSendOf (p : CallData → Bool) : NetEvent → Bool
  | .send tx => p tx.call
  | _ => false

/-- Call discriminator: an ERC-20 `approve`. -/
def isApproveCall : CallData → Bool
  | .approve _ _ => true
  | _ => false

/-- Call discriminator: a `receiveDepositInOtherToken`. -/
def isDepositOtherCall : CallData → Bool
  | .receiveDepositInOtherToken _ _ => true
  | _ => false

/-- Whether an operation outcome is a success. -/
def isOkE : Except String Unit → Bool
  | .ok _ => true
  | .error _ => false

/-- Nonce discipline of a trace, read at trace position `t`: every
submission is immediately preceded by its own transaction-count lookup
for `addr`, and its nonce is the stringified count the oracle reports at
exactly that position.  A submission without such a dedicated fresh
lookup (in particular, one reusing an earlier lookup) fails the check. -/
def freshNonces (chain : Chain) (addr : String) :
    Nat → List NetEvent → Bool
  | _, [] => true
  | t, NetEvent.getTransactionCount a :: NetEvent.send tx :: rest =>
    if a = addr then
      match chain.txCount t a with
      | .ok n =>
        if tx.nonce = Nat.repr n then freshNonces chain addr (t + 2) rest
        else false
      | .error _ => false
    else false
  | _, NetEvent.send _ :: _ => false
  | t, _ :: rest => freshNonces chain addr (t + 1) rest

/-- Whether an event of `addMakerOrder` carries the expected parameter
blob as the sole argument of the `addMakerOrder` contract method. -/
def usesBlob (blob : List Nat) : NetEvent → Bool
  | .estimateGas _ c _ => decide (c = CallData.addMakerOrder blob)
  | .send tx => decide (tx.call = CallData.addMakerOrder blob)
  | _ => true

/-- Whether an event of `depositMarginOtherToken` uses the fixed token
literal: ERC-20 reads and approvals target it, and every
`receiveDepositInOtherToken` call passes it as the token parameter. -/
def usesTokenLiteral : NetEvent → Bool
  | .ethCall d _ => decide (d = tokenAddress)
  | .send tx =>
    match tx.call with
    | .approve _ _ => decide (tx.dest = tokenAddress)
    | .receiveDepositInOtherToken t _ => decide (t = tokenAddress)
    | _ => true
  | .estimateGas _ c _ =>
    match c with
    | .receiveDepositInOtherToken t _ => decide (t = tokenAddress)
    | _ => true
  | _ => true

/-! Concrete fixtures used by witnesses and counterexamples. -/

/-- A signing account fixture. -/
def accT : Account :=
  { address := "0x1111111111111111111111111111111111111111", mnemonic := "11" }

/-- An order-book address fixture. -/
def obT : String := "0x3333333333333333333333333333333333333333"

/-- A vault address fixture. -/
def vaultT : String := "0x2222222222222222222222222222222222222222"

/-- A chain fixture on which every RPC succeeds with non-zero gas. -/
def chainOk : Chain :=
  { estimateGas := fun _ _ _ => .ok 21000,
    txCount := fun t _ => .ok (100 + t),
    callResult := fun _ _ => .ok 0,
    send := fun _ => .ok "0xhash" }

/-- A chain fixture whose gas estimator reports zero for every call. -/
def chainGas0 : Chain :=
  { estimateGas := fun _ _ _ => .ok 0,
    txCount := fun t _ => .ok (100 + t),
    callResult := fun _ _ => .ok 0,
    send := fun _ => .ok "0xhash" }

/-- A chain fixture whose allowance read reports 2 wei. -/
def chainAllow2 : Chain :=
  { estimateGas := fun _ _ _ => .ok 21000,
    txCount := fun t _ => .ok (100 + t),
    callResult := fun _ _ => .ok 2,
    send := fun _ => .ok "0xhash" }


/-- Exhaustive case analysis of `addMakerOrder`. -/
lemma addMakerOrder_cases (chain : Chain) (account : Account) (obA : String) :
    let P := encodeParameters account.address "100000000000000000"
      "2000000000000000000" true
    let ev0 := NetEvent.estimateGas obA (CallData.addMakerOrder P)
      (some account.address)
    let ev1 := NetEvent.getTransactionCount account.address
    (∃ e, chain.estimateGas obA (CallData.addMakerOrder P)
        (some account.address) = .error e ∧
      addMakerOrder chain account obA = ([ev0], .error e)) ∨
    (chain.estimateGas obA (CallData.addMakerOrder P)
        (some account.address) = .ok 0 ∧
      addMakerOrder chain account obA = ([ev0], .error " Estimate Gas Failed ")) ∨
    (∃ g, g ≠ 0 ∧ chain.estimateGas obA (CallData.addMakerOrder P)
        (some account.address) = .ok g ∧
      ((∃ e, chain.txCount 1 account.address = .error e ∧
          addMakerOrder chain account obA = ([ev0, ev1], .error e)) ∨
       (∃ n, chain.txCount 1 account.address = .ok n ∧
        ∃ tx : TxRequest,
         tx = ⟨obA, account.address, Nat.repr n, none, CallData.addMakerOrder P⟩ ∧
         ((∃ e, chain.send tx = .error e ∧
             addMakerOrder chain account obA =
               ([ev0, ev1, NetEvent.send tx], .error e)) ∨
          (∃ h, chain.send tx = .ok h ∧
             addMakerOrder chain account obA =
               ([ev0, ev1, NetEvent.send tx], .ok ())))))) := by
  intro P ev0 ev1
  rcases hE : chain.estimateGas obA (CallData.addMakerOrder P)
      (some account.address) with e | g
  · exact Or.inl ⟨e, rfl, by simp [addMakerOrder, hE]⟩
  · by_cases hg : g = 0
    · subst hg
      exact Or.inr (Or.inl ⟨rfl, by simp [addMakerOrder, hE]⟩)
    · refine Or.inr (Or.inr ⟨g, hg, rfl, ?_⟩)
      rcases hT : chain.txCount 1 account.address with e | n
      · exact Or.inl ⟨e, rfl, by simp [addMakerOrder, hE, hg, hT]⟩
      · refine Or.inr ⟨n, rfl, _, rfl, ?_⟩
        rcases hS : chain.send ⟨obA, account.address, Nat.repr n, none,
            CallData.addMakerOrder P⟩ with e | h
        · exact Or.inl ⟨e, rfl, by simp [addMakerOrder, hE, hg, hT, hS]⟩
        · exact Or.inr ⟨h, rfl, by simp [addMakerOrder, hE, hg, hT, hS]⟩


/-- Exhaustive case analysis of `removeMakerOrder`. -/
lemma removeMakerOrder_cases (chain : Chain) (account : Account) (obA : String) :
    let ev0 := NetEvent.estimateGas obA (CallData.removeOrder 123) none
    let ev1 := NetEvent.getTransactionCount account.address
    (∃ e, chain.estimateGas obA (CallData.removeOrder 123) none = .error e ∧
      removeMakerOrder chain account obA = ([ev0], .error e)) ∨
    (chain.estimateGas obA (CallData.removeOrder 123) none = .ok 0 ∧
      removeMakerOrder chain account obA = ([ev0], .error "Cannot Estimate Gas")) ∨
    (∃ g, g ≠ 0 ∧ chain.estimateGas obA (CallData.removeOrder 123) none = .ok g ∧
      ((∃ e, chain.txCount 1 account.address = .error e ∧
          removeMakerOrder chain account obA = ([ev0, ev1], .error e)) ∨
       (∃ n, chain.txCount 1 account.address = .ok n ∧
        ∃ tx : TxRequest,
         tx = ⟨obA, account.address, Nat.repr n, some "0x02", (CallData.removeOrder 123)⟩ ∧
         ((∃ e, chain.send tx = .error e ∧
             removeMakerOrder chain account obA =
               ([ev0, ev1, NetEvent.send tx], .error e)) ∨
          (∃ h, chain.send tx = .ok h ∧
             removeMakerOrder chain account obA =
               ([ev0, ev1, NetEvent.send tx], .ok ())))))) := by
  intro ev0 ev1
  rcases hE : chain.estimateGas obA (CallData.removeOrder 123) none with e | g
  · exact Or.inl ⟨e, rfl, by simp [removeMakerOrder, hE]⟩
  · by_cases hg : g = 0
    · subst hg
      exact Or.inr (Or.inl ⟨rfl, by simp [removeMakerOrder, hE]⟩)
    · refine Or.inr (Or.inr ⟨g, hg, rfl, ?_⟩)
      rcases hT : chain.txCount 1 account.address with e | n
      · exact Or.inl ⟨e, rfl, by simp [removeMakerOrder, hE, hg, hT]⟩
      · refine Or.inr ⟨n, rfl, _, rfl, ?_⟩
        rcases hS : chain.send ⟨obA, account.address, Nat.repr n, some "0x02",
            (CallData.removeOrder 123)⟩ with e | h
        · exact Or.inl ⟨e, rfl, by simp [removeMakerOrder, hE, hg, hT, hS]⟩
        · exact Or.inr ⟨h, rfl, by simp [removeMakerOrder, hE, hg, hT, hS]⟩


/-- Exhaustive case analysis of `depositMarginWETH`. -/
lemma depositMarginWETH_cases (chain : Chain) (account : Account) (pvA : String) :
    let ev0 := NetEvent.estimateGas pvA (CallData.receiveDepositWETH "1000000000000000000") (some account.address)
    let ev1 := NetEvent.getTransactionCount account.address
    (∃ e, chain.estimateGas pvA (CallData.receiveDepositWETH "1000000000000000000") (some account.address) = .error e ∧
      depositMarginWETH chain account pvA = ([ev0], .error e)) ∨
    (chain.estimateGas pvA (CallData.receiveDepositWETH "1000000000000000000") (some account.address) = .ok 0 ∧
      depositMarginWETH chain account pvA = ([ev0], .error "Failed to Estimate Gas")) ∨
    (∃ g, g ≠ 0 ∧ chain.estimateGas pvA (CallData.receiveDepositWETH "1000000000000000000") (some account.address) = .ok g ∧
      ((∃ e, chain.txCount 1 account.address = .error e ∧
          depositMarginWETH chain account pvA = ([ev0, ev1], .error e)) ∨
       (∃ n, chain.txCount 1 account.address = .ok n ∧
        ∃ tx : TxRequest,
         tx = ⟨pvA, account.address, Nat.repr n, some "0x02", (CallData.receiveDepositWETH "1000000000000000000")⟩ ∧
         ((∃ e, chain.send tx = .error e ∧
             depositMarginWETH chain account pvA =
               ([ev0, ev1, NetEvent.send tx], .error e)) ∨
          (∃ h, chain.send tx = .ok h ∧
             depositMarginWETH chain account pvA =
               ([ev0, ev1, NetEvent.send tx], .ok ())))))) := by
  intro ev0 ev1
  rcases hE : chain.estimateGas pvA (CallData.receiveDepositWETH "1000000000000000000") (some account.address) with e | g
  · exact Or.inl ⟨e, rfl, by simp [depositMarginWETH, hE]⟩
  · by_cases hg : g = 0
    · subst hg
      exact Or.inr (Or.inl ⟨rfl, by simp [depositMarginWETH, hE]⟩)
    · refine Or.inr (Or.inr ⟨g, hg, rfl, ?_⟩)
      rcases hT : chain.txCount 1 account.address with e | n
      · exact Or.inl ⟨e, rfl, by simp [depositMarginWETH, hE, hg, hT]⟩
      · refine Or.inr ⟨n, rfl, _, rfl, ?_⟩
        rcases hS : chain.send ⟨pvA, account.address, Nat.repr n, some "0x02",
            (CallData.receiveDepositWETH "1000000000000000000")⟩ with e | h
        · exact Or.inl ⟨e, rfl, by simp [depositMarginWETH, hE, hg, hT, hS]⟩
        · exact Or.inr ⟨h, rfl, by simp [depositMarginWETH, hE, hg, hT, hS]⟩


/-- Exhaustive case analysis of `withdrawMargin`. -/
lemma withdrawMargin_cases (chain : Chain) (account : Account) (mA : String) :
    let ev0 := NetEvent.estimateGas mA (CallData.withdraw "1000000000000000000") none
    let ev1 := NetEvent.getTransactionCount account.address
    (∃ e, chain.estimateGas mA (CallData.withdraw "1000000000000000000") none = .error e ∧
      withdrawMargin chain account mA = ([ev0], .error e)) ∨
    (chain.estimateGas mA (CallData.withdraw "1000000000000000000") none = .ok 0 ∧
      withdrawMargin chain account mA = ([ev0], .error "Failed to Estimate Gas")) ∨
    (∃ g, g ≠ 0 ∧ chain.estimateGas mA (CallData.withdraw "1000000000000000000") none = .ok g ∧
      ((∃ e, chain.txCount 1 account.address = .error e ∧
          withdrawMargin chain account mA = ([ev0, ev1], .error e)) ∨
       (∃ n, chain.txCount 1 account.address = .ok n ∧
        ∃ tx : TxRequest,
         tx = ⟨mA, account.address, Nat.repr n, some "0x02", (CallData.withdraw "1000000000000000000")⟩ ∧
         ((∃ e, chain.send tx = .error e ∧
             withdrawMargin chain account mA =
               ([ev0, ev1, NetEvent.send tx], .error e)) ∨
          (∃ h, chain.send tx = .ok h ∧
             withdrawMargin chain account mA =
               ([ev0, ev1, NetEvent.send tx], .ok ())))))) := by
  intro ev0 ev1
  rcases hE : chain.estimateGas mA (CallData.withdraw "1000000000000000000") none with e | g
  · exact Or.inl ⟨e, rfl, by simp [withdrawMargin, hE]⟩
  · by_cases hg : g = 0
    · subst hg
      exact Or.inr (Or.inl ⟨rfl, by simp [withdrawMargin, hE]⟩)
    · refine Or.inr (Or.inr ⟨g, hg, rfl, ?_⟩)
      rcases hT : chain.txCount 1 account.address with e | n
      · exact Or.inl ⟨e, rfl, by simp [withdrawMargin, hE, hg, hT]⟩
      · refine Or.inr ⟨n, rfl, _, rfl, ?_⟩
        rcases hS : chain.send ⟨mA, account.address, Nat.repr n, some "0x02",
            (CallData.withdraw "1000000000000000000")⟩ with e | h
        · exact Or.inl ⟨e, rfl, by simp [withdrawMargin, hE, hg, hT, hS]⟩
        · exact Or.inr ⟨h, rfl, by simp [withdrawMargin, hE, hg, hT, hS]⟩


/-- Exhaustive case analysis of `depositOtherFinish`. -/
lemma depositOtherFinish_cases (chain : Chain) (account : Account)
    (pvA : String) (evs : List NetEvent) :
    let dc := CallData.receiveDepositInOtherToken tokenAddress
      "1000000000000000000"
    let ev3 := NetEvent.estimateGas pvA dc none
    let ev4 := NetEvent.getTransactionCount account.address
    (∃ e, chain.estimateGas pvA dc none = .error e ∧
      depositOtherFinish chain account pvA evs = (evs ++ [ev3], .error e)) ∨
    (chain.estimateGas pvA dc none = .ok 0 ∧
      depositOtherFinish chain account pvA evs =
        (evs ++ [ev3], .error "Failed to Estimate Gas")) ∨
    (∃ g, g ≠ 0 ∧ chain.estimateGas pvA dc none = .ok g ∧
      ((∃ e, chain.txCount (evs.length + 1) account.address = .error e ∧
          depositOtherFinish chain account pvA evs =
            (evs ++ [ev3, ev4], .error e)) ∨
       (∃ n, chain.txCount (evs.length + 1) account.address = .ok n ∧
        ∃ tx : TxRequest,
         tx = ⟨pvA, account.address, Nat.repr n, some "0x02", dc⟩ ∧
         ((∃ e, chain.send tx = .error e ∧
             depositOtherFinish chain account pvA evs =
               (evs ++ [ev3, ev4, NetEvent.send tx], .error e)) ∨
          (∃ h, chain.send tx = .ok h ∧
             depositOtherFinish chain account pvA evs =
               (evs ++ [ev3, ev4, NetEvent.send tx], .ok ())))))) := by
  intro dc ev3 ev4
  rcases hE : chain.estimateGas pvA dc none with e | g
  · exact Or.inl ⟨e, rfl, by simp [depositOtherFinish, hE]⟩
  · by_cases hg : g = 0
    · subst hg
      exact Or.inr (Or.inl ⟨rfl, by simp [depositOtherFinish, hE]⟩)
    · refine Or.inr (Or.inr ⟨g, hg, rfl, ?_⟩)
      rcases hT : chain.txCount (evs.length + 1) account.address with e | n
      · exact Or.inl ⟨e, rfl, by simp [depositOtherFinish, hE, hg, hT]⟩
      · refine Or.inr ⟨n, rfl, _, rfl, ?_⟩
        rcases hS : chain.send ⟨pvA, account.address, Nat.repr n, some "0x02",
            dc⟩ with e | h
        · exact Or.inl ⟨e, rfl, by simp [depositOtherFinish, hE, hg, hT, hS]⟩
        · exact Or.inr ⟨h, rfl, by simp [depositOtherFinish, hE, hg, hT, hS]⟩

/-- Exhaustive case analysis of the allowance block of
`depositMarginOtherToken`; the two success exits continue with
`depositOtherFinish`. -/
lemma depositMarginOtherToken_cases (chain : Chain) (account : Account)
    (pvA : String) (vE : Option String) :
    let va := envStr vE
    let aCall := CallData.allowance account.address va
    let ev0 := NetEvent.ethCall tokenAddress aCall
    let ev1 := NetEvent.getTransactionCount account.address
    (∃ e, chain.callResult tokenAddress aCall = .error e ∧
      depositMarginOtherToken chain account pvA vE = ([ev0], .error e)) ∨
    (∃ a, chain.callResult tokenAddress aCall = .ok a ∧
      jsStrLt (Nat.repr a) "1000000000000000000" = true ∧
      ((∃ e, chain.txCount 1 account.address = .error e ∧
          depositMarginOtherToken chain account pvA vE =
            ([ev0, ev1], .error e)) ∨
       (∃ n, chain.txCount 1 account.address = .ok n ∧
        ∃ txA : TxRequest,
         txA = ⟨tokenAddress, account.address, Nat.repr n, some "0x02",
           CallData.approve va "1000000000000000000"⟩ ∧
         ((∃ e, chain.send txA = .error e ∧
             depositMarginOtherToken chain account pvA vE =
               ([ev0, ev1, NetEvent.send txA], .error e)) ∨
          (∃ h, chain.send txA = .ok h ∧
             depositMarginOtherToken chain account pvA vE =
               depositOtherFinish chain account pvA
                 [ev0, ev1, NetEvent.send txA]))))) ∨
    (∃ a, chain.callResult tokenAddress aCall = .ok a ∧
      jsStrLt (Nat.repr a) "1000000000000000000" = false ∧
      depositMarginOtherToken chain account pvA vE =
        depositOtherFinish chain account pvA [ev0]) := by
  intro va aCall ev0 ev1
  rcases hC : chain.callResult tokenAddress aCall with e | a
  · exact Or.inl ⟨e, rfl, by simp [depositMarginOtherToken, hC]⟩
  · cases hlt : jsStrLt (Nat.repr a) "1000000000000000000"
    · exact Or.inr (Or.inr ⟨a, rfl, hlt,
        by simp [depositMarginOtherToken, hC, hlt]⟩)
    · refine Or.inr (Or.inl ⟨a, rfl, hlt, ?_⟩)
      rcases hT : chain.txCount 1 account.address with e | n
      · exact Or.inl ⟨e, rfl, by simp [depositMarginOtherToken, hC, hlt, hT]⟩
      · refine Or.inr ⟨n, rfl, _, rfl, ?_⟩
        rcases hS : chain.send ⟨tokenAddress, account.address, Nat.repr n,
            some "0x02", CallData.approve va "1000000000000000000"⟩ with e | h
        · exact Or.inl ⟨e, rfl,
            by simp [depositMarginOtherToken, hC, hlt, hT, hS]⟩
        · exact Or.inr ⟨h, rfl,
            by simp [depositMarginOtherToken, hC, hlt, hT, hS]⟩


/-- The deposit continuation leaves a trace that keeps using the token
literal, provided the prefix it was handed does. -/
lemma depositOtherFinish_all_token (chain : Chain) (account : Account)
    (pvA : String) (evs : List NetEvent)
    (h : evs.all usesTokenLiteral = true) :
    ((depositOtherFinish chain account pvA evs).1.all usesTokenLiteral)
      = true := by
  rcases depositOtherFinish_cases chain account pvA evs with
    ⟨e, _, hr⟩ | ⟨_, hr⟩ |
    ⟨g, _, _, ⟨e, _, hr⟩ | ⟨n, _, tx, htx, ⟨e, _, hr⟩ | ⟨hh, _, hr⟩⟩⟩ <;>
    rw [hr] <;> subst_vars <;> simp_all [usesTokenLiteral]

/-- Claim C10: every invocation of `depositMarginOtherToken` constructs
its ERC-20 binding at the fixed literal `0x000000000000000000000000000000`
— a 30-hex-digit (15-byte) string that fails the 20-byte address-format
check — and passes the same literal as the token parameter of every
`receiveDepositInOtherToken` call it estimates or submits. -/
theorem claim10_token_literal :
    tokenAddress = "0x000000000000000000000000000000" ∧
    (addrBody tokenAddress).length = 30 ∧
    (addrBody tokenAddress).all isHexDigit = true ∧
    isAddressFormat tokenAddress = false ∧
    ∀ (chain : Chain) (account : Account) (pvA : String) (vE : Option String),
      ((depositMarginOtherToken chain account pvA vE).1.all usesTokenLiteral)
        = true := by
  refine ⟨rfl, by decide, by decide, by decide, ?_⟩
  intro chain account pvA vE
  rcases depositMarginOtherToken_cases chain account pvA vE with
    ⟨e, _, hr⟩ |
    ⟨a, _, _, ⟨e, _, hr⟩ | ⟨n, _, txA, htx, ⟨e, _, hr⟩ | ⟨hh, _, hr⟩⟩⟩ |
    ⟨a, _, _, hr⟩
  · rw [hr]; simp [usesTokenLiteral]
  · rw [hr]; simp [usesTokenLiteral]
  · rw [hr]; subst htx; simp [usesTokenLiteral]
  · rw [hr]; subst htx
    exact depositOtherFinish_all_token _ _ _ _ (by simp [usesTokenLiteral])
  · rw [hr]
    exact depositOtherFinish_all_token _ _ _ _ (by simp [usesTokenLiteral])

/-- Claim C1 (code bug): the allowance gate of `depositMarginOtherToken`
compares decimal strings lexicographically, not numerically.  With a
simulated allowance of 2 wei — far below the 10^18 deposit amount — the
JavaScript comparison `"2" < "1000000000000000000"` is false, so the
operation submits no approval at all and proceeds straight to the
deposit, contradicting the claimed "exactly one approval when the
allowance is below the deposit amount". -/
theorem claim1_allowance_string_compare :
    (2 : Nat) < 10 ^ 18 ∧
    jsStrLt (Nat.repr 2) "1000000000000000000" = false ∧
    countP (isSendOf isApproveCall)
      (depositMarginOtherToken chainAllow2 accT vaultT (some vaultT)).1 = 0 ∧
    (depositMarginOtherToken chainAllow2 accT vaultT (some vaultT)).2
      = .ok () := by
  refine ⟨by norm_num, rfl, rfl, rfl⟩

/-- Claim C4: the parameter blob of `addMakerOrder` is the static ABI
encoding of (maker address, 10^17, 2·10^18, true) in that order — four
32-byte words — and it is the sole argument of the `addMakerOrder` call
in both the gas-estimation and the submission events.  The second
conjunct pins the exact byte sequence for a sample all-`aa` address. -/
theorem claim4_maker_order_encoding :
    (∀ account : Account,
      encodeParameters account.address "100000000000000000"
          "2000000000000000000" true =
        beBytes32 (hexToNat account.address) ++ beBytes32 (10 ^ 17) ++
          beBytes32 (2 * 10 ^ 18) ++ beBytes32 1) ∧
    encodeParameters "0xaaaaaaaaaaaaaaaaaaaaaaaaaaaaaaaaaaaaaaaa"
        "100000000000000000" "2000000000000000000" true =
      (List.replicate 12 0 ++ List.replicate 20 170) ++
        (List.replicate 24 0 ++ [1, 99, 69, 120, 93, 138, 0, 0]) ++
        (List.replicate 24 0 ++ [27, 193, 109, 103, 78, 200, 0, 0]) ++
        (List.replicate 31 0 ++ [1]) ∧
    ∀ (chain : Chain) (account : Account) (obA : String),
      ((addMakerOrder chain account obA).1.all
        (usesBlob (encodeParameters account.address "100000000000000000"
          "2000000000000000000" true))) = true := by
  refine ⟨?_, by decide, ?_⟩
  · intro account
    unfold encodeParameters
    rw [show decToNat "100000000000000000" = 10 ^ 17 from by decide,
      show decToNat "2000000000000000000" = 2 * 10 ^ 18 from by decide]
    rfl
  · intro chain account obA
    rcases addMakerOrder_cases chain account obA with
      ⟨e, _, hr⟩ | ⟨_, hr⟩ |
      ⟨g, _, _, ⟨e, _, hr⟩ | ⟨n, _, tx, htx, ⟨e, _, hr⟩ | ⟨hh, _, hr⟩⟩⟩ <;>
      rw [hr] <;> subst_vars <;> simp [usesBlob]

/-- Claim C8: the maker-address consistency check of `initWeb3` is exact
string comparison: there is a configuration whose `MAKER_ADDRESS` passes
the address validity check and denotes the same 20-byte account as the
address derived from the private key, differing from it only in hex
letter case, and `initWeb3` still throws the mismatch error. -/
theorem claim8_case_sensitive_mismatch :
    ∃ (env : Env) (derive : String → String) (ck : String → Bool),
      isAddress ck (env.MAKER_ADDRESS.getD "") = true ∧
      strLower (env.MAKER_ADDRESS.getD "") =
        strLower (derive (trimStr (env.PRIVATE_KEY.getD ""))) ∧
      hexToNat (env.MAKER_ADDRESS.getD "") =
        hexToNat (derive (trimStr (env.PRIVATE_KEY.getD ""))) ∧
      env.MAKER_ADDRESS.getD "" ≠ derive (trimStr (env.PRIVATE_KEY.getD "")) ∧
      (initWeb3 ck derive env).2 =
        .error "Invalid MNEMONIC and Maker Address differ" := by
  refine ⟨⟨some "http://localhost", some obT, some vaultT, some vaultT,
    some "0xaaaaaaaaaaaaaaaaaaaaaaaaaaaaaaaaaaaaaaaa", some "aa"⟩,
    fun _ => "0xAAAAAAAAAAAAAAAAAAAAAAAAAAAAAAAAAAAAAAAA", fun _ => false,
    by decide, by decide, by decide, by decide, rfl⟩


/-- The function `initWeb3` performs no network round-trip on any path. -/
lemma initWeb3_trace_nil (ck : String → Bool) (derive : String → String)
    (env : Env) : (initWeb3 ck derive env).1 = [] := by
  unfold initWeb3
  dsimp only
  split_ifs <;> rfl

/-- Claim C5: whenever any of the six required environment variables is
absent, `initWeb3` reports a configuration error, and neither it nor the
whole `main` run up to that failure makes any network call. -/
theorem claim5_missing_env_fails_early :
    ∀ (chain : Chain) (ck : String → Bool) (derive : String → String)
      (env : Env),
      env.RPC_ENDPOINT = none ∨ env.ORDER_BOOK_ADDRESS = none ∨
        env.MARGIN_ADDRESS = none ∨ env.PROTOCOL_VAULT_ADDRESS = none ∨
        env.MAKER_ADDRESS = none ∨ env.PRIVATE_KEY = none →
      (initWeb3 ck derive env).1 = [] ∧
      (∃ e, (initWeb3 ck derive env).2 = .error e) ∧
      (main chain ck derive env).1 = [] := by
  intro chain ck derive env h
  have hnil : (initWeb3 ck derive env).1 = [] := initWeb3_trace_nil ck derive env
  have herr : ∃ e, (initWeb3 ck derive env).2 = .error e := by
    unfold initWeb3
    dsimp only
    split_ifs
    · exact ⟨_, rfl⟩
    · exact ⟨_, rfl⟩
    · exact ⟨_, rfl⟩
    · exact ⟨_, rfl⟩
    · exact ⟨_, rfl⟩
    · exfalso
      rcases h with h | h | h | h | h | h <;> simp_all [falsy]
  refine ⟨hnil, herr, ?_⟩
  obtain ⟨e, he⟩ := herr
  have hm : main chain ck derive env = ((initWeb3 ck derive env).1, .error e) := by
    unfold main
    rcases hI : initWeb3 ck derive env with ⟨evs, r⟩
    rw [hI] at he
    simp only at he
    subst he
    rfl
  rw [hm, hnil]

/-- Claim C6: with all configuration present and a valid maker address,
a private key whose derived address differs from `MAKER_ADDRESS` makes
`initWeb3` fail with the mismatch error and return no client. -/
theorem claim6_key_mismatch_fatal :
    ∀ (ck : String → Bool) (derive : String → String) (env : Env),
      falsy env.RPC_ENDPOINT = false →
      falsy env.ORDER_BOOK_ADDRESS = false →
      falsy env.MARGIN_ADDRESS = false →
      falsy env.PROTOCOL_VAULT_ADDRESS = false →
      falsy env.MAKER_ADDRESS = false →
      isAddress ck (env.MAKER_ADDRESS.getD "") = true →
      falsy env.PRIVATE_KEY = false →
      derive (trimStr (env.PRIVATE_KEY.getD "")) ≠ env.MAKER_ADDRESS.getD "" →
      initWeb3 ck derive env =
        ([], .error "Invalid MNEMONIC and Maker Address differ") := by
  intro ck derive env h1 h2 h3 h4 h5 h6 h7 h8
  unfold initWeb3
  simp [h1, h2, h3, h4, h5, h6, h7, h8]

/-- A complete environment whose maker address is the all-lowercase
`aa…a` address. -/
def env6 : Env :=
  ⟨some "http://localhost", some obT, some vaultT, some vaultT,
    some "0xaaaaaaaaaaaaaaaaaaaaaaaaaaaaaaaaaaaaaaaa", some "aa"⟩

/-- A derivation fixture returning an address other than `env6`'s maker. -/
def deriveBB : String → String :=
  fun _ => "0xbbbbbbbbbbbbbbbbbbbbbbbbbbbbbbbbbbbbbbbb"

/-- A checksum oracle fixture that rejects everything (the all-lowercase
fixtures never consult it). -/
def ckFalse : String → Bool := fun _ => false

/-- Witness for C6 at a concrete configuration. -/
theorem claim6_witness :
    isAddress ckFalse (env6.MAKER_ADDRESS.getD "") = true ∧
    deriveBB (trimStr (env6.PRIVATE_KEY.getD "")) ≠ env6.MAKER_ADDRESS.getD "" ∧
    initWeb3 ckFalse deriveBB env6 =
      ([], .error "Invalid MNEMONIC and Maker Address differ") :=
  ⟨by decide, by decide,
    claim6_key_mismatch_fatal ckFalse deriveBB env6 rfl rfl rfl rfl rfl
      (by decide) rfl (by decide)⟩

/-- An environment missing `RPC_ENDPOINT`. -/
def env5 : Env :=
  ⟨none, some obT, some vaultT, some vaultT,
    some "0xaaaaaaaaaaaaaaaaaaaaaaaaaaaaaaaaaaaaaaaa", some "aa"⟩

/-- Witness for C5 at a concrete configuration missing `RPC_ENDPOINT`. -/
theorem claim5_witness :
    env5.RPC_ENDPOINT = none ∧
    (initWeb3 ckFalse deriveBB env5).1 = [] ∧
    (∃ e, (initWeb3 ckFalse deriveBB env5).2 = .error e) ∧
    (main chainOk ckFalse deriveBB env5).1 = [] :=
  ⟨rfl, claim5_missing_env_fails_early chainOk ckFalse deriveBB env5 (Or.inl rfl)⟩


/-- Claim C3: in every operation, each submission's nonce is the
stringified transaction count the chain reports for the signing account
at the lookup made immediately before that submission, and each
submission has its own dedicated lookup (`freshNonces` rejects a
submission without an immediately preceding lookup, so a lookup result
is never reused across two submissions). -/
theorem claim3_nonce_freshness :
    ∀ (chain : Chain) (account : Account) (obA pvA mA : String)
      (vE : Option String),
      freshNonces chain account.address 0
          (addMakerOrder chain account obA).1 = true ∧
      freshNonces chain account.address 0
          (removeMakerOrder chain account obA).1 = true ∧
      freshNonces chain account.address 0
          (depositMarginWETH chain account pvA).1 = true ∧
      freshNonces chain account.address 0
          (depositMarginOtherToken chain account pvA vE).1 = true ∧
      freshNonces chain account.address 0
          (withdrawMargin chain account mA).1 = true := by
  intro chain account obA pvA mA vE
  refine ⟨?_, ?_, ?_, ?_, ?_⟩
  · rcases addMakerOrder_cases chain account obA with
      ⟨e, hE, hr⟩ | ⟨hE, hr⟩ |
      ⟨g, hg, hE, ⟨e, hT, hr⟩ | ⟨n, hT, tx, htx, ⟨e, hS, hr⟩ | ⟨hh, hS, hr⟩⟩⟩ <;>
      rw [hr] <;> subst_vars <;> simp_all [freshNonces]
  · rcases removeMakerOrder_cases chain account obA with
      ⟨e, hE, hr⟩ | ⟨hE, hr⟩ |
      ⟨g, hg, hE, ⟨e, hT, hr⟩ | ⟨n, hT, tx, htx, ⟨e, hS, hr⟩ | ⟨hh, hS, hr⟩⟩⟩ <;>
      rw [hr] <;> subst_vars <;> simp_all [freshNonces]
  · rcases depositMarginWETH_cases chain account pvA with
      ⟨e, hE, hr⟩ | ⟨hE, hr⟩ |
      ⟨g, hg, hE, ⟨e, hT, hr⟩ | ⟨n, hT, tx, htx, ⟨e, hS, hr⟩ | ⟨hh, hS, hr⟩⟩⟩ <;>
      rw [hr] <;> subst_vars <;> simp_all [freshNonces]
  · rcases depositMarginOtherToken_cases chain account pvA vE with
      ⟨e, hC, hr⟩ |
      ⟨a, hC, hlt, ⟨e, hT1, hr⟩ |
        ⟨n, hT1, txA, htxA, ⟨e, hS1, hr⟩ | ⟨hh1, hS1, hr⟩⟩⟩ |
      ⟨a, hC, hlt, hr⟩
    · rw [hr]; simp [freshNonces]
    · rw [hr]; simp [freshNonces]
    · rw [hr]; subst htxA; simp [freshNonces, hT1]
    · rw [hr]; subst htxA
      rcases depositOtherFinish_cases chain account pvA
          [NetEvent.ethCall tokenAddress
            (CallData.allowance account.address (envStr vE)),
           NetEvent.getTransactionCount account.address,
           NetEvent.send ⟨tokenAddress, account.address, Nat.repr n,
             some "0x02", CallData.approve (envStr vE) "1000000000000000000"⟩] with
        ⟨e, hE, hr2⟩ | ⟨hE, hr2⟩ |
        ⟨g, hg, hE, ⟨e, hT2, hr2⟩ | ⟨m, hT2, tx, htx, ⟨e, hS2, hr2⟩ | ⟨hh2, hS2, hr2⟩⟩⟩ <;>
        rw [hr2] <;> subst_vars <;>
        simp_all [freshNonces]
    · rw [hr]
      rcases depositOtherFinish_cases chain account pvA
          [NetEvent.ethCall tokenAddress
            (CallData.allowance account.address (envStr vE))] with
        ⟨e, hE, hr2⟩ | ⟨hE, hr2⟩ |
        ⟨g, hg, hE, ⟨e, hT2, hr2⟩ | ⟨m, hT2, tx, htx, ⟨e, hS2, hr2⟩ | ⟨hh2, hS2, hr2⟩⟩⟩ <;>
        rw [hr2] <;> subst_vars <;>
        simp_all [freshNonces]
  · rcases withdrawMargin_cases chain account mA with
      ⟨e, hE, hr⟩ | ⟨hE, hr⟩ |
      ⟨g, hg, hE, ⟨e, hT, hr⟩ | ⟨n, hT, tx, htx, ⟨e, hS, hr⟩ | ⟨hh, hS, hr⟩⟩⟩ <;>
      rw [hr] <;> subst_vars <;> simp_all [freshNonces]


/-- Claim C2 (counterexample): in `depositMarginOtherToken`, with a
zero allowance and a zero gas estimate, one submission — the approval —
is made before the gas-estimation step fails, so it is not true that a
falsy estimate means no send call is made in that operation. -/
theorem claim2_counterexample :
    chainGas0.estimateGas vaultT
        (CallData.receiveDepositInOtherToken tokenAddress
          "1000000000000000000") none = .ok 0 ∧
    (depositMarginOtherToken chainGas0 accT vaultT (some vaultT)).2 =
      .error "Failed to Estimate Gas" ∧
    countP isSendEv
      (depositMarginOtherToken chainGas0 accT vaultT (some vaultT)).1 = 1 :=
  ⟨rfl, rfl, rfl⟩

/-- Claim C2 as amended: when the gas estimator reports zero, each
operation throws its estimation error and never submits its own
transaction — for the four single-transaction operations no send at all
is made, while `depositMarginOtherToken` never submits the deposit
transaction (its approval may already have been sent before the
estimation step). -/
theorem claim2_gas_zero_short_circuit :
    ∀ (chain : Chain) (account : Account) (obA pvA mA : String)
      (vE : Option String),
      (chain.estimateGas obA
          (CallData.addMakerOrder (encodeParameters account.address
            "100000000000000000" "2000000000000000000" true))
          (some account.address) = .ok 0 →
        (addMakerOrder chain account obA).2 = .error " Estimate Gas Failed " ∧
        countP isSendEv (addMakerOrder chain account obA).1 = 0) ∧
      (chain.estimateGas obA (CallData.removeOrder 123) none = .ok 0 →
        (removeMakerOrder chain account obA).2 = .error "Cannot Estimate Gas" ∧
        countP isSendEv (removeMakerOrder chain account obA).1 = 0) ∧
      (chain.estimateGas pvA
          (CallData.receiveDepositWETH "1000000000000000000")
          (some account.address) = .ok 0 →
        (depositMarginWETH chain account pvA).2 =
          .error "Failed to Estimate Gas" ∧
        countP isSendEv (depositMarginWETH chain account pvA).1 = 0) ∧
      (chain.estimateGas pvA
          (CallData.receiveDepositInOtherToken tokenAddress
            "1000000000000000000") none = .ok 0 →
        isOkE (depositMarginOtherToken chain account pvA vE).2 = false ∧
        countP (isSendOf isDepositOtherCall)
          (depositMarginOtherToken chain account pvA vE).1 = 0) ∧
      (chain.estimateGas mA (CallData.withdraw "1000000000000000000")
          none = .ok 0 →
        (withdrawMargin chain account mA).2 = .error "Failed to Estimate Gas" ∧
        countP isSendEv (withdrawMargin chain account mA).1 = 0) := by
  intro chain account obA pvA mA vE
  refine ⟨?_, ?_, ?_, ?_, ?_⟩
  · intro h0
    rcases addMakerOrder_cases chain account obA with
      ⟨e, hE, hr⟩ | ⟨hE, hr⟩ | ⟨g, hg, hE, _⟩
    · rw [h0] at hE; cases hE
    · rw [hr]; exact ⟨rfl, by simp [countP, isSendEv]⟩
    · rw [h0] at hE
      injection hE with h
      exact absurd h.symm hg
  · intro h0
    rcases removeMakerOrder_cases chain account obA with
      ⟨e, hE, hr⟩ | ⟨hE, hr⟩ | ⟨g, hg, hE, _⟩
    · rw [h0] at hE; cases hE
    · rw [hr]; exact ⟨rfl, by simp [countP, isSendEv]⟩
    · rw [h0] at hE
      injection hE with h
      exact absurd h.symm hg
  · intro h0
    rcases depositMarginWETH_cases chain account pvA with
      ⟨e, hE, hr⟩ | ⟨hE, hr⟩ | ⟨g, hg, hE, _⟩
    · rw [h0] at hE; cases hE
    · rw [hr]; exact ⟨rfl, by simp [countP, isSendEv]⟩
    · rw [h0] at hE
      injection hE with h
      exact absurd h.symm hg
  · intro h0
    rcases depositMarginOtherToken_cases chain account pvA vE with
      ⟨e, hC, hr⟩ |
      ⟨a, hC, hlt, ⟨e, hT1, hr⟩ |
        ⟨n, hT1, txA, htxA, ⟨e, hS1, hr⟩ | ⟨hh1, hS1, hr⟩⟩⟩ |
      ⟨a, hC, hlt, hr⟩
    · rw [hr]; exact ⟨rfl, by simp [countP, isSendOf]⟩
    · rw [hr]; exact ⟨rfl, by simp [countP, isSendOf]⟩
    · rw [hr]; subst htxA
      exact ⟨rfl, by simp [countP, isSendOf, isDepositOtherCall]⟩
    · rw [hr]; subst htxA
      rcases depositOtherFinish_cases chain account pvA
          [NetEvent.ethCall tokenAddress
            (CallData.allowance account.address (envStr vE)),
           NetEvent.getTransactionCount account.address,
           NetEvent.send ⟨tokenAddress, account.address, Nat.repr n,
             some "0x02", CallData.approve (envStr vE) "1000000000000000000"⟩] with
        ⟨e, hE, hr2⟩ | ⟨hE, hr2⟩ | ⟨g, hg, hE, _⟩
      · rw [h0] at hE; cases hE
      · rw [hr2]
        exact ⟨rfl, by simp [countP, isSendOf, isDepositOtherCall]⟩
      · rw [h0] at hE
        injection hE with h
        exact absurd h.symm hg
    · rw [hr]
      rcases depositOtherFinish_cases chain account pvA
          [NetEvent.ethCall tokenAddress
            (CallData.allowance account.address (envStr vE))] with
        ⟨e, hE, hr2⟩ | ⟨hE, hr2⟩ | ⟨g, hg, hE, _⟩
      · rw [h0] at hE; cases hE
      · rw [hr2]
        exact ⟨rfl, by simp [countP, isSendOf, isDepositOtherCall]⟩
      · rw [h0] at hE
        injection hE with h
        exact absurd h.symm hg
  · intro h0
    rcases withdrawMargin_cases chain account mA with
      ⟨e, hE, hr⟩ | ⟨hE, hr⟩ | ⟨g, hg, hE, _⟩
    · rw [h0] at hE; cases hE
    · rw [hr]; exact ⟨rfl, by simp [countP, isSendEv]⟩
    · rw [h0] at hE
      injection hE with h
      exact absurd h.symm hg

/-- Witness for the amended C2 on a chain whose estimator reports zero
for every call. -/
theorem claim2_witness :
    (addMakerOrder chainGas0 accT obT).2 = .error " Estimate Gas Failed " ∧
    countP isSendEv (addMakerOrder chainGas0 accT obT).1 = 0 ∧
    (removeMakerOrder chainGas0 accT obT).2 = .error "Cannot Estimate Gas" ∧
    (depositMarginWETH chainGas0 accT vaultT).2 =
      .error "Failed to Estimate Gas" ∧
    isOkE (depositMarginOtherToken chainGas0 accT vaultT (some vaultT)).2 =
      false ∧
    countP (isSendOf isDepositOtherCall)
      (depositMarginOtherToken chainGas0 accT vaultT (some vaultT)).1 = 0 ∧
    (withdrawMargin chainGas0 accT vaultT).2 =
      .error "Failed to Estimate Gas" := by
  obtain ⟨h1, h2, h3, h4, h5⟩ :=
    claim2_gas_zero_short_circuit chainGas0 accT obT vaultT vaultT (some vaultT)
  exact ⟨(h1 rfl).1, (h1 rfl).2, (h2 rfl).1, (h3 rfl).1, (h4 rfl).1,
    (h4 rfl).2, (h5 rfl).1⟩


/-- Claim C9: the gas estimate is used only for the fail-fast zero
check.  Two chains that agree on transaction counts, call results and
submission behaviour but report different non-zero estimates drive every
operation to the same trace and outcome — in particular the submitted
transaction requests are identical (no gas-limit field is derived from
the estimate; `TxRequest` carries none). -/
theorem claim9_gas_estimate_unused :
    ∀ (c₁ c₂ : Chain) (account : Account) (obA pvA mA : String)
      (vE : Option String),
      c₁.txCount = c₂.txCount →
      c₁.callResult = c₂.callResult →
      c₁.send = c₂.send →
      (∀ g₁ g₂, g₁ ≠ 0 → g₂ ≠ 0 →
        c₁.estimateGas obA
          (CallData.addMakerOrder (encodeParameters account.address
            "100000000000000000" "2000000000000000000" true))
          (some account.address) = .ok g₁ →
        c₂.estimateGas obA
          (CallData.addMakerOrder (encodeParameters account.address
            "100000000000000000" "2000000000000000000" true))
          (some account.address) = .ok g₂ →
        addMakerOrder c₁ account obA = addMakerOrder c₂ account obA) ∧
      (∀ g₁ g₂, g₁ ≠ 0 → g₂ ≠ 0 →
        c₁.estimateGas obA (CallData.removeOrder 123) none = .ok g₁ →
        c₂.estimateGas obA (CallData.removeOrder 123) none = .ok g₂ →
        removeMakerOrder c₁ account obA = removeMakerOrder c₂ account obA) ∧
      (∀ g₁ g₂, g₁ ≠ 0 → g₂ ≠ 0 →
        c₁.estimateGas pvA (CallData.receiveDepositWETH "1000000000000000000")
          (some account.address) = .ok g₁ →
        c₂.estimateGas pvA (CallData.receiveDepositWETH "1000000000000000000")
          (some account.address) = .ok g₂ →
        depositMarginWETH c₁ account pvA = depositMarginWETH c₂ account pvA) ∧
      (∀ g₁ g₂, g₁ ≠ 0 → g₂ ≠ 0 →
        c₁.estimateGas pvA
          (CallData.receiveDepositInOtherToken tokenAddress
            "1000000000000000000") none = .ok g₁ →
        c₂.estimateGas pvA
          (CallData.receiveDepositInOtherToken tokenAddress
            "1000000000000000000") none = .ok g₂ →
        depositMarginOtherToken c₁ account pvA vE =
          depositMarginOtherToken c₂ account pvA vE) ∧
      (∀ g₁ g₂, g₁ ≠ 0 → g₂ ≠ 0 →
        c₁.estimateGas mA (CallData.withdraw "1000000000000000000")
          none = .ok g₁ →
        c₂.estimateGas mA (CallData.withdraw "1000000000000000000")
          none = .ok g₂ →
        withdrawMargin c₁ account mA = withdrawMargin c₂ account mA) := by
  intro c₁ c₂ account obA pvA mA vE ht hc hs
  refine ⟨?_, ?_, ?_, ?_, ?_⟩
  · intro g₁ g₂ hg₁ hg₂ hE₁ hE₂
    simp only [addMakerOrder, hE₁, hE₂]
    simp [hg₁, hg₂, ← ht, ← hs]
  · intro g₁ g₂ hg₁ hg₂ hE₁ hE₂
    simp only [removeMakerOrder, hE₁, hE₂]
    simp [hg₁, hg₂, ← ht, ← hs]
  · intro g₁ g₂ hg₁ hg₂ hE₁ hE₂
    simp only [depositMarginWETH, hE₁, hE₂]
    simp [hg₁, hg₂, ← ht, ← hs]
  · intro g₁ g₂ hg₁ hg₂ hE₁ hE₂
    simp only [depositMarginOtherToken, depositOtherFinish, hE₁, hE₂]
    simp [hg₁, hg₂, ← ht, ← hc, ← hs]
  · intro g₁ g₂ hg₁ hg₂ hE₁ hE₂
    simp only [withdrawMargin, hE₁, hE₂]
    simp [hg₁, hg₂, ← ht, ← hs]

/-- A chain identical to `chainOk` except for a different non-zero gas
estimate. -/
def chainOk2 : Chain :=
  { estimateGas := fun _ _ _ => .ok 50000,
    txCount := fun t _ => .ok (100 + t),
    callResult := fun _ _ => .ok 0,
    send := fun _ => .ok "0xhash" }

/-- Witness for C9 at two concrete chains differing only in the
(non-zero) gas estimate. -/
theorem claim9_witness :
    addMakerOrder chainOk accT obT = addMakerOrder chainOk2 accT obT ∧
    removeMakerOrder chainOk accT obT = removeMakerOrder chainOk2 accT obT ∧
    depositMarginWETH chainOk accT vaultT =
      depositMarginWETH chainOk2 accT vaultT ∧
    depositMarginOtherToken chainOk accT vaultT (some vaultT) =
      depositMarginOtherToken chainOk2 accT vaultT (some vaultT) ∧
    withdrawMargin chainOk accT vaultT = withdrawMargin chainOk2 accT vaultT := by
  obtain ⟨h1, h2, h3, h4, h5⟩ :=
    claim9_gas_estimate_unused chainOk chainOk2 accT obT vaultT vaultT
      (some vaultT) rfl rfl rfl
  exact ⟨h1 21000 50000 (by decide) (by decide) rfl rfl,
    h2 21000 50000 (by decide) (by decide) rfl rfl,
    h3 21000 50000 (by decide) (by decide) rfl rfl,
    h4 21000 50000 (by decide) (by decide) rfl rfl,
    h5 21000 50000 (by decide) (by decide) rfl rfl⟩


/-- Claim C7: no network action is ever retried and every error is
fatal.  Part (A) bounds how often each kind of RPC can occur in any
execution of each operation (once per step of its linear sequence).
Parts (B)–(D) show that an error from any step — gas estimation, nonce
lookup, allowance read, or submission — becomes the operation's own
result unchanged, and that `main` returns `initWeb3`'s or
`addMakerOrder`'s error unchanged, terminating the invocation. -/
theorem claim7_no_retry_errors_fatal :
    ∀ (chain : Chain) (account : Account) (obA pvA mA : String)
      (vE : Option String) (ck : String → Bool) (derive : String → String)
      (env : Env),
      let W := "1000000000000000000"
      let cAdd := CallData.addMakerOrder (encodeParameters account.address
        "100000000000000000" "2000000000000000000" true)
      let dc := CallData.receiveDepositInOtherToken tokenAddress W
      let aCall := CallData.allowance account.address (envStr vE)
      (countP isEstimateEv (addMakerOrder chain account obA).1 ≤ 1 ∧
        countP isTxCountEv (addMakerOrder chain account obA).1 ≤ 1 ∧
        countP isSendEv (addMakerOrder chain account obA).1 ≤ 1) ∧
      (countP isEstimateEv (removeMakerOrder chain account obA).1 ≤ 1 ∧
        countP isTxCountEv (removeMakerOrder chain account obA).1 ≤ 1 ∧
        countP isSendEv (removeMakerOrder chain account obA).1 ≤ 1) ∧
      (countP isEstimateEv (depositMarginWETH chain account pvA).1 ≤ 1 ∧
        countP isTxCountEv (depositMarginWETH chain account pvA).1 ≤ 1 ∧
        countP isSendEv (depositMarginWETH chain account pvA).1 ≤ 1) ∧
      (countP isEstimateEv (withdrawMargin chain account mA).1 ≤ 1 ∧
        countP isTxCountEv (withdrawMargin chain account mA).1 ≤ 1 ∧
        countP isSendEv (withdrawMargin chain account mA).1 ≤ 1) ∧
      (countP isEthCallEv (depositMarginOtherToken chain account pvA vE).1 ≤ 1 ∧
        countP isEstimateEv (depositMarginOtherToken chain account pvA vE).1 ≤ 1 ∧
        countP isTxCountEv (depositMarginOtherToken chain account pvA vE).1 ≤ 2 ∧
        countP isSendEv (depositMarginOtherToken chain account pvA vE).1 ≤ 2 ∧
        countP (isSendOf isApproveCall)
          (depositMarginOtherToken chain account pvA vE).1 ≤ 1 ∧
        countP (isSendOf isDepositOtherCall)
          (depositMarginOtherToken chain account pvA vE).1 ≤ 1) ∧
      (∀ e, chain.estimateGas obA cAdd (some account.address) = .error e →
        (addMakerOrder chain account obA).2 = .error e) ∧
      (∀ e g, g ≠ 0 →
        chain.estimateGas obA cAdd (some account.address) = .ok g →
        chain.txCount 1 account.address = .error e →
        (addMakerOrder chain account obA).2 = .error e) ∧
      (∀ e g n, g ≠ 0 →
        chain.estimateGas obA cAdd (some account.address) = .ok g →
        chain.txCount 1 account.address = .ok n →
        chain.send ⟨obA, account.address, Nat.repr n, none, cAdd⟩ = .error e →
        (addMakerOrder chain account obA).2 = .error e) ∧
      (∀ e, chain.estimateGas obA (CallData.removeOrder 123) none = .error e →
        (removeMakerOrder chain account obA).2 = .error e) ∧
      (∀ e g, g ≠ 0 →
        chain.estimateGas obA (CallData.removeOrder 123) none = .ok g →
        chain.txCount 1 account.address = .error e →
        (removeMakerOrder chain account obA).2 = .error e) ∧
      (∀ e g n, g ≠ 0 →
        chain.estimateGas obA (CallData.removeOrder 123) none = .ok g →
        chain.txCount 1 account.address = .ok n →
        chain.send ⟨obA, account.address, Nat.repr n, some "0x02",
          CallData.removeOrder 123⟩ = .error e →
        (removeMakerOrder chain account obA).2 = .error e) ∧
      (∀ e, chain.estimateGas pvA (CallData.receiveDepositWETH W)
          (some account.address) = .error e →
        (depositMarginWETH chain account pvA).2 = .error e) ∧
      (∀ e g, g ≠ 0 →
        chain.estimateGas pvA (CallData.receiveDepositWETH W)
          (some account.address) = .ok g →
        chain.txCount 1 account.address = .error e →
        (depositMarginWETH chain account pvA).2 = .error e) ∧
      (∀ e g n, g ≠ 0 →
        chain.estimateGas pvA (CallData.receiveDepositWETH W)
          (some account.address) = .ok g →
        chain.txCount 1 account.address = .ok n →
        chain.send ⟨pvA, account.address, Nat.repr n, some "0x02",
          CallData.receiveDepositWETH W⟩ = .error e →
        (depositMarginWETH chain account pvA).2 = .error e) ∧
      (∀ e, chain.estimateGas mA (CallData.withdraw W) none = .error e →
        (withdrawMargin chain account mA).2 = .error e) ∧
      (∀ e g, g ≠ 0 →
        chain.estimateGas mA (CallData.withdraw W) none = .ok g →
        chain.txCount 1 account.address = .error e →
        (withdrawMargin chain account mA).2 = .error e) ∧
      (∀ e g n, g ≠ 0 →
        chain.estimateGas mA (CallData.withdraw W) none = .ok g →
        chain.txCount 1 account.address = .ok n →
        chain.send ⟨mA, account.address, Nat.repr n, some "0x02",
          CallData.withdraw W⟩ = .error e →
        (withdrawMargin chain account mA).2 = .error e) ∧
      (∀ e, chain.callResult tokenAddress aCall = .error e →
        (depositMarginOtherToken chain account pvA vE).2 = .error e) ∧
      (∀ e a, chain.callResult tokenAddress aCall = .ok a →
        jsStrLt (Nat.repr a) W = true →
        chain.txCount 1 account.address = .error e →
        (depositMarginOtherToken chain account pvA vE).2 = .error e) ∧
      (∀ e a n, chain.callResult tokenAddress aCall = .ok a →
        jsStrLt (Nat.repr a) W = true →
        chain.txCount 1 account.address = .ok n →
        chain.send ⟨tokenAddress, account.address, Nat.repr n, some "0x02",
          CallData.approve (envStr vE) W⟩ = .error e →
        (depositMarginOtherToken chain account pvA vE).2 = .error e) ∧
      (∀ a, chain.callResult tokenAddress aCall = .ok a →
        jsStrLt (Nat.repr a) W = false →
        depositMarginOtherToken chain account pvA vE =
          depositOtherFinish chain account pvA
            [NetEvent.ethCall tokenAddress aCall]) ∧
      (∀ a n h, chain.callResult tokenAddress aCall = .ok a →
        jsStrLt (Nat.repr a) W = true →
        chain.txCount 1 account.address = .ok n →
        chain.send ⟨tokenAddress, account.address, Nat.repr n, some "0x02",
          CallData.approve (envStr vE) W⟩ = .ok h →
        depositMarginOtherToken chain account pvA vE =
          depositOtherFinish chain account pvA
            [NetEvent.ethCall tokenAddress aCall,
             NetEvent.getTransactionCount account.address,
             NetEvent.send ⟨tokenAddress, account.address, Nat.repr n,
               some "0x02", CallData.approve (envStr vE) W⟩]) ∧
      (∀ (evs : List NetEvent) e, chain.estimateGas pvA dc none = .error e →
        (depositOtherFinish chain account pvA evs).2 = .error e) ∧
      (∀ (evs : List NetEvent) e g, g ≠ 0 →
        chain.estimateGas pvA dc none = .ok g →
        chain.txCount (evs.length + 1) account.address = .error e →
        (depositOtherFinish chain account pvA evs).2 = .error e) ∧
      (∀ (evs : List NetEvent) e g n, g ≠ 0 →
        chain.estimateGas pvA dc none = .ok g →
        chain.txCount (evs.length + 1) account.address = .ok n →
        chain.send ⟨pvA, account.address, Nat.repr n, some "0x02", dc⟩ =
          .error e →
        (depositOtherFinish chain account pvA evs).2 = .error e) ∧
      (∀ e, (initWeb3 ck derive env).2 = .error e →
        (main chain ck derive env).2 = .error e) ∧
      (∀ c, (initWeb3 ck derive env).2 = .ok c →
        main chain ck derive env =
          ((initWeb3 ck derive env).1 ++
            (addMakerOrder chain c.account c.orderBookAddr).1,
           (addMakerOrder chain c.account c.orderBookAddr).2)) := by
  intro chain account obA pvA mA vE ck derive env W cAdd dc aCall
  refine ⟨?_, ?_, ?_, ?_, ?_, ?_, ?_, ?_, ?_, ?_, ?_, ?_, ?_, ?_, ?_, ?_,
    ?_, ?_, ?_, ?_, ?_, ?_, ?_, ?_, ?_, ?_, ?_⟩
  · rcases addMakerOrder_cases chain account obA with
      ⟨e, hE, hr⟩ | ⟨hE, hr⟩ |
      ⟨g, hg, hE, ⟨e, hT, hr⟩ | ⟨n, hT, tx, htx, ⟨e, hS, hr⟩ | ⟨hh, hS, hr⟩⟩⟩ <;>
      rw [hr] <;> subst_vars <;>
      simp_all [countP, isEstimateEv, isTxCountEv, isSendEv]
  · rcases removeMakerOrder_cases chain account obA with
      ⟨e, hE, hr⟩ | ⟨hE, hr⟩ |
      ⟨g, hg, hE, ⟨e, hT, hr⟩ | ⟨n, hT, tx, htx, ⟨e, hS, hr⟩ | ⟨hh, hS, hr⟩⟩⟩ <;>
      rw [hr] <;> subst_vars <;>
      simp_all [countP, isEstimateEv, isTxCountEv, isSendEv]
  · rcases depositMarginWETH_cases chain account pvA with
      ⟨e, hE, hr⟩ | ⟨hE, hr⟩ |
      ⟨g, hg, hE, ⟨e, hT, hr⟩ | ⟨n, hT, tx, htx, ⟨e, hS, hr⟩ | ⟨hh, hS, hr⟩⟩⟩ <;>
      rw [hr] <;> subst_vars <;>
      simp_all [countP, isEstimateEv, isTxCountEv, isSendEv]
  · rcases withdrawMargin_cases chain account mA with
      ⟨e, hE, hr⟩ | ⟨hE, hr⟩ |
      ⟨g, hg, hE, ⟨e, hT, hr⟩ | ⟨n, hT, tx, htx, ⟨e, hS, hr⟩ | ⟨hh, hS, hr⟩⟩⟩ <;>
      rw [hr] <;> subst_vars <;>
      simp_all [countP, isEstimateEv, isTxCountEv, isSendEv]
  · rcases depositMarginOtherToken_cases chain account pvA vE with
      ⟨e, hC, hr⟩ |
      ⟨a, hC, hlt, ⟨e, hT1, hr⟩ |
        ⟨n, hT1, txA, htxA, ⟨e, hS1, hr⟩ | ⟨hh1, hS1, hr⟩⟩⟩ |
      ⟨a, hC, hlt, hr⟩
    · rw [hr]
      simp [countP, isEthCallEv, isEstimateEv, isTxCountEv, isSendEv, isSendOf]
    · rw [hr]
      simp [countP, isEthCallEv, isEstimateEv, isTxCountEv, isSendEv, isSendOf]
    · rw [hr]; subst htxA
      simp [countP, isEthCallEv, isEstimateEv, isTxCountEv, isSendEv,
        isSendOf, isApproveCall, isDepositOtherCall]
    · rw [hr]; subst htxA
      rcases depositOtherFinish_cases chain account pvA
          [NetEvent.ethCall tokenAddress
            (CallData.allowance account.address (envStr vE)),
           NetEvent.getTransactionCount account.address,
           NetEvent.send ⟨tokenAddress, account.address, Nat.repr n,
             some "0x02", CallData.approve (envStr vE) "1000000000000000000"⟩] with
        ⟨e, hE, hr2⟩ | ⟨hE, hr2⟩ |
        ⟨g, hg, hE, ⟨e, hT2, hr2⟩ | ⟨m, hT2, tx, htx, ⟨e, hS2, hr2⟩ | ⟨hh2, hS2, hr2⟩⟩⟩ <;>
        rw [hr2] <;> subst_vars <;>
        simp_all [countP, isEthCallEv, isEstimateEv, isTxCountEv, isSendEv,
          isSendOf, isApproveCall, isDepositOtherCall]
    · rw [hr]
      rcases depositOtherFinish_cases chain account pvA
          [NetEvent.ethCall tokenAddress
            (CallData.allowance account.address (envStr vE))] with
        ⟨e, hE, hr2⟩ | ⟨hE, hr2⟩ |
        ⟨g, hg, hE, ⟨e, hT2, hr2⟩ | ⟨m, hT2, tx, htx, ⟨e, hS2, hr2⟩ | ⟨hh2, hS2, hr2⟩⟩⟩ <;>
        rw [hr2] <;> subst_vars <;>
        simp_all [countP, isEthCallEv, isEstimateEv, isTxCountEv, isSendEv,
          isSendOf, isApproveCall, isDepositOtherCall]
  · intro e h
    simp [addMakerOrder, h]
  · intro e g hg hE hT
    simp [addMakerOrder, hE, hg, hT]
  · intro e g n hg hE hT hS
    simp [addMakerOrder, hE, hg, hT, hS]
  · intro e h
    simp [removeMakerOrder, h]
  · intro e g hg hE hT
    simp [removeMakerOrder, hE, hg, hT]
  · intro e g n hg hE hT hS
    simp [removeMakerOrder, hE, hg, hT, hS]
  · intro e h
    simp [depositMarginWETH, h]
  · intro e g hg hE hT
    simp [depositMarginWETH, hE, hg, hT]
  · intro e g n hg hE hT hS
    simp [depositMarginWETH, hE, hg, hT, hS]
  · intro e h
    simp [withdrawMargin, h]
  · intro e g hg hE hT
    simp [withdrawMargin, hE, hg, hT]
  · intro e g n hg hE hT hS
    simp [withdrawMargin, hE, hg, hT, hS]
  · intro e h
    simp [depositMarginOtherToken, h]
  · intro e a hC hlt hT
    simp [depositMarginOtherToken, hC, hlt, hT]
  · intro e a n hC hlt hT hS
    simp [depositMarginOtherToken, hC, hlt, hT, hS]
  · intro a hC hlt
    simp [depositMarginOtherToken, hC, hlt]
  · intro a n h hC hlt hT hS
    simp [depositMarginOtherToken, hC, hlt, hT, hS]
  · intro evs e h
    simp [depositOtherFinish, h]
  · intro evs e g hg hE hT
    simp [depositOtherFinish, hE, hg, hT]
  · intro evs e g n hg hE hT hS
    simp [depositOtherFinish, hE, hg, hT, hS]
  · intro e h
    unfold main
    rcases hI : initWeb3 ck derive env with ⟨evs, r⟩
    rw [hI] at h
    simp only at h
    subst h
    rfl
  · intro c h
    unfold main
    rcases hI : initWeb3 ck derive env with ⟨evs, r⟩
    rw [hI] at h
    simp only at h
    subst h
    rfl

/-- A chain fixture on which every RPC fails with the same error. -/
def chainErr : Chain :=
  { estimateGas := fun _ _ _ => .error "boom",
    txCount := fun _ _ => .error "boom",
    callResult := fun _ _ => .error "boom",
    send := fun _ => .error "boom" }

/-- Witness for C7: count bounds on a fully successful chain, and
errors from the estimator, the allowance read and the configuration
step surfacing unchanged as operation and `main` results. -/
theorem claim7_witness :
    countP isSendEv (addMakerOrder chainOk accT obT).1 ≤ 1 ∧
    (addMakerOrder chainErr accT obT).2 = .error "boom" ∧
    (withdrawMargin chainErr accT vaultT).2 = .error "boom" ∧
    (depositMarginOtherToken chainErr accT vaultT (some vaultT)).2 =
      .error "boom" ∧
    (main chainOk ckFalse deriveBB env5).2 =
      .error "Provide a valid RPC_ENDPOINT" := by
  obtain ⟨⟨_, _, hA⟩, _⟩ :=
    claim7_no_retry_errors_fatal chainOk accT obT vaultT vaultT (some vaultT)
      ckFalse deriveBB env5
  obtain ⟨_, _, _, _, _, p1, _, _, _, _, _, _, _, _, w1, _, _, d1, _, _, _,
      _, _, _, _, m1, _⟩ :=
    claim7_no_retry_errors_fatal chainErr accT obT vaultT vaultT (some vaultT)
      ckFalse deriveBB env5
  obtain ⟨_, _, _, _, _, _, _, _, _, _, _, _, _, _, _, _, _, _, _, _, _, _,
      _, _, _, m2, _⟩ :=
    claim7_no_retry_errors_fatal chainOk accT obT vaultT vaultT (some vaultT)
      ckFalse deriveBB env5
  exact ⟨hA, p1 "boom" rfl, w1 "boom" rfl, d1 "boom" rfl, m2 _ rfl⟩

end ContractClient
